import Mathlib

/-!
Verification of the ChaosMagnet presentation layer (`src/main.py`) against its
natural-language specification.

The file shallowly embeds the Python code of `main.py`:
* Python values that can appear in a JSON-decoded metrics payload are the
  inductive `PyVal`; Python floats are `PyFloat` (exact rationals plus the IEEE
  specials `inf`, `-inf`, `nan`; rounding of in-range values is not modelled,
  overflow to the IEEE double range is).
* Fallible Python code runs in `Except PyErr`; an uncaught exception is an
  `Except.error`.
* Calls into the Rust engine (`chaos_magnet_core`, which is not part of the
  Python source) are recorded as an explicit trace of `EngineCall`s, and the
  engine's responses are parameters of the embedded callbacks.
-/

set_option autoImplicit false

namespace ChaosMagnet

/-- Python exceptions relevant to `main.py`, identified by class.
(`str(e)` message payloads are abstracted to the class name.) -/
inductive PyErr where
  | valueError
  | typeError
  | overflowError
  | attributeError
deriving DecidableEq, Repr

/-- A Python float: an exact rational for finite doubles (rounding to binary64
is not modelled), plus the IEEE specials. -/
inductive PyFloat where
  | finite (q : Rat)
  | inf
  | neginf
  | nan
deriving DecidableEq, Repr

/-- A Python value as produced by `json.loads`, plus `bool`/`None` which the
code also manipulates.  JSON object keys are strings. -/
inductive PyVal where
  | none
  | bool (b : Bool)
  | int (n : Int)
  | float (x : PyFloat)
  | str (s : String)
  | list (xs : List PyVal)
  | dict (kvs : List (String × PyVal))

/-- The calls `main.py` can make into the Rust `ChaosEngine`. -/
inductive EngineCall where
  | getMetrics
  | toggleHarvester (rustName : String) (enabled : Bool)
  | toggleUplink (enabled : Bool)
  | toggleP2p (enabled : Bool)
  | setNetworkTarget (addr : String)
  | setP2pPort (port : Int)
  | addPeer (addr : String)
  | mintPqcBundle (owner : String)
  | shutdown
deriving DecidableEq, Repr

/-- ASCII whitespace stripped by Python's `int()`/`float()` string conversion
(Unicode whitespace beyond ASCII is not modelled). -/
def isPyWS (c : Char) : Bool :=
  c == ' ' || c == '\t' || c == '\n' || c == '\r' || c == '\x0b' || c == '\x0c'

/-- Strip leading and trailing whitespace. -/
def stripPyWS (cs : List Char) : List Char :=
  ((cs.dropWhile isPyWS).reverse.dropWhile isPyWS).reverse

/-- Consume a run of decimal digits, allowing single underscores strictly
between digits (Python numeric-literal grammar).  Returns the accumulated
value, the number of digits consumed, and the unconsumed remainder. -/
def digitRun (acc : Nat) (cnt : Nat) : List Char → Nat × Nat × List Char
  | [] => (acc, cnt, [])
  | c :: rest =>
    if c.isDigit then digitRun (acc * 10 + (c.toNat - 48)) (cnt + 1) rest
    else if c == '_' then
      match rest with
      | d :: rest2 =>
        if d.isDigit then digitRun (acc * 10 + (d.toNat - 48)) (cnt + 1) rest2
        else (acc, cnt, c :: rest)
      | [] => (acc, cnt, [c])
    else (acc, cnt, c :: rest)

/-- `int(s)` for a Python string `s`: optional surrounding whitespace, optional
sign, decimal digits (underscores between digits allowed); `Option.none` models
`ValueError`. -/
def pyIntOfString (s : String) : Option Int :=
  let cs := stripPyWS s.toList
  let signBody : Int × List Char :=
    match cs with
    | '+' :: r => (1, r)
    | '-' :: r => (-1, r)
    | r => (1, r)
  match signBody.2 with
  | c :: _ =>
    if c.isDigit then
      let r := digitRun 0 0 signBody.2
      if r.2.2.isEmpty then some (signBody.1 * (r.1 : Int)) else Option.none
    else Option.none
  | [] => Option.none

/-- Smallest magnitude at which CPython's int-to-float / string-to-float
conversion leaves the binary64 range (values at or above this midpoint round
up to `2^1024` under round-half-even): `2^1024 - 2^970`, written as a literal
so that it evaluates without unfolding large powers.  `dblOverflowBoundNat_eq`
below checks the literal. -/
def dblOverflowBoundNat : Nat := 179769313486231580793728971405303415079934132710037826936173778980444968292764750946649017977587207096330286416692887910946555547851940402630657488671505820681908902000708383676273854845817711531764475730270069855571366959622842914819860834936475292719074168444365510704342711559699508093042880177904174497792

/-- Does `mant * 10 ^ exp10` lie at or beyond the binary64 overflow bound?
The comparison is carried out in `Nat` so that it evaluates. -/
def dblOvf (mant : Nat) (exp10 : Int) : Bool :=
  if 0 ≤ exp10 then decide (dblOverflowBoundNat ≤ mant * 10 ^ exp10.toNat)
  else decide (dblOverflowBoundNat * 10 ^ (-exp10).toNat ≤ mant)

/-- The exact rational `mant * 10 ^ exp10`. -/
def decToRat (mant : Nat) (exp10 : Int) : Rat :=
  if 0 ≤ exp10 then mkRat (mant * 10 ^ exp10.toNat : Nat) 1
  else mkRat (mant : Nat) (10 ^ (-exp10).toNat)

/-- Parse the integer-and-fraction part of a Python float literal; the value is
`mant * 10 ^ exp10` for the returned `(mant, exp10)`, with the remainder of the
input. -/
def parseMantissa (cs : List Char) : Option ((Nat × Int) × List Char) :=
  let ipr : Nat × Nat × List Char :=
    match cs with
    | c :: _ => if c.isDigit then digitRun 0 0 cs else (0, 0, cs)
    | [] => (0, 0, cs)
  match ipr.2.2 with
  | '.' :: rest2 =>
    let fpr : Nat × Nat × List Char :=
      match rest2 with
      | d :: _ => if d.isDigit then digitRun 0 0 rest2 else (0, 0, rest2)
      | [] => (0, 0, rest2)
    if ipr.2.1 == 0 && fpr.2.1 == 0 then Option.none
    else some ((ipr.1 * 10 ^ fpr.2.1 + fpr.1, -(fpr.2.1 : Int)), fpr.2.2)
  | _ => if ipr.2.1 == 0 then Option.none else some ((ipr.1, 0), ipr.2.2)

/-- Parse an optional exponent part (`e`/`E`, optional sign, digits) and add it
to the exponent accumulated so far; the whole remainder must be consumed. -/
def parseExponentPart (exp10 : Int) : List Char → Option Int
  | [] => some exp10
  | c :: rest =>
    if c == 'e' || c == 'E' then
      let signBody : Int × List Char :=
        match rest with
        | '+' :: r => (1, r)
        | '-' :: r => (-1, r)
        | r => (1, r)
      match signBody.2 with
      | d :: _ =>
        if d.isDigit then
          let r := digitRun 0 0 signBody.2
          if r.2.2.isEmpty then some (exp10 + signBody.1 * (r.1 : Int))
          else Option.none
        else Option.none
      | [] => Option.none
    else Option.none

/-- `float(s)` for a Python string `s`: whitespace and sign handling,
case-insensitive `inf`/`infinity`/`nan`, decimal literals with optional
exponent; out-of-range values overflow to infinity exactly as CPython's
`strtod`-based conversion does.  `Option.none` models `ValueError`.
(Gradual underflow to `0.0` and binary64 rounding are not modelled.) -/
def pyFloatOfString (s : String) : Option PyFloat :=
  let cs := stripPyWS s.toList
  let signBody : Bool × List Char :=
    match cs with
    | '+' :: r => (false, r)
    | '-' :: r => (true, r)
    | r => (false, r)
  let neg := signBody.1
  let body := signBody.2
  let lower := body.map Char.toLower
  if lower = "inf".toList ∨ lower = "infinity".toList then
    some (if neg then PyFloat.neginf else PyFloat.inf)
  else if lower = "nan".toList then
    some PyFloat.nan
  else
    match parseMantissa body with
    | some mr =>
      match parseExponentPart mr.1.2 mr.2 with
      | some e =>
        if dblOvf mr.1.1 e then
          some (if neg then PyFloat.neginf else PyFloat.inf)
        else
          some (PyFloat.finite
            (if neg then -(decToRat mr.1.1 e) else decToRat mr.1.1 e))
      | Option.none => Option.none
    | Option.none => Option.none

/-- Truncation toward zero, the behaviour of Python's `int()` on a finite
float. -/
def ratTrunc (q : Rat) : Int :=
  if q.num < 0 then -(((-q.num).toNat / q.den : Nat) : Int)
  else ((q.num.toNat / q.den : Nat) : Int)

/-- `int(x)` for a Python float `x`: truncates finite values; raises
`OverflowError` on the infinities and `ValueError` on `nan`. -/
def pyIntOfFloat : PyFloat → Except PyErr Int
  | PyFloat.finite q => Except.ok (ratTrunc q)
  | PyFloat.inf => Except.error PyErr.overflowError
  | PyFloat.neginf => Except.error PyErr.overflowError
  | PyFloat.nan => Except.error PyErr.valueError

/-- `float(n)` for a Python int `n`: raises `OverflowError` once the value
rounds outside the binary64 range (in-range values are kept exact; binary64
rounding is not modelled). -/
def pyFloatOfInt (n : Int) : Except PyErr PyFloat :=
  if dblOverflowBoundNat ≤ n.natAbs then Except.error PyErr.overflowError
  else Except.ok (PyFloat.finite (mkRat n 1))

/-- The `except (ValueError, TypeError): return default` clause shared by
`safe_float` and `safe_int`: those two exception classes are converted to the
default, every other exception propagates. -/
def catchValueType {α : Type} (r : Except PyErr α) (default : α) : Except PyErr α :=
  match r with
  | Except.error PyErr.valueError => Except.ok default
  | Except.error PyErr.typeError => Except.ok default
  | other => other

/-- `safe_float` from `main.py` (lines 34-47).  Note `isinstance(True, int)`
holds in Python, so booleans take the numeric branch. -/
def safe_float (value : PyVal) (default : PyFloat) : Except PyErr PyFloat :=
  catchValueType
    (match value with
     | PyVal.str s =>
       if s = "" ∨ s = "(?)" ∨ s = "N/A" then Except.ok default
       else
         match pyFloatOfString s with
         | some x => Except.ok x
         | Option.none => Except.error PyErr.valueError
     | PyVal.int n => pyFloatOfInt n
     | PyVal.bool b => Except.ok (PyFloat.finite (if b then 1 else 0))
     | PyVal.float x => Except.ok x
     | _ => Except.ok default)
    default

/-- `safe_int` from `main.py` (lines 49-61): strings go through
`int(float(s))`, numbers through `int(value)`, everything else yields the
default. -/
def safe_int (value : PyVal) (default : Int) : Except PyErr Int :=
  catchValueType
    (match value with
     | PyVal.str s =>
       if s = "" ∨ s = "(?)" ∨ s = "N/A" then Except.ok default
       else
         match pyFloatOfString s with
         | some x => pyIntOfFloat x
         | Option.none => Except.error PyErr.valueError
     | PyVal.int n => Except.ok n
     | PyVal.bool b => Except.ok (if b then 1 else 0)
     | PyVal.float x => pyIntOfFloat x
     | _ => Except.ok default)
    default

/-- `v.get(key, default)`: present only on dicts; any other receiver raises
`AttributeError`. -/
def pyGet (v : PyVal) (key : String) (default : PyVal) : Except PyErr PyVal :=
  match v with
  | PyVal.dict kvs =>
    Except.ok (((kvs.find? (fun kv => kv.1 == key)).map (fun kv => kv.2)).getD default)
  | _ => Except.error PyErr.attributeError

/-- `v.items()`: present only on dicts. -/
def pyItems (v : PyVal) : Except PyErr (List (String × PyVal)) :=
  match v with
  | PyVal.dict kvs => Except.ok kvs
  | _ => Except.error PyErr.attributeError

/-- Python truthiness (`bool(v)`) for the modelled values; note `nan` and the
infinities are truthy. -/
def pyTruthy : PyVal → Bool
  | PyVal.none => false
  | PyVal.bool b => b
  | PyVal.int n => n != 0
  | PyVal.float (PyFloat.finite q) => q != 0
  | PyVal.float _ => true
  | PyVal.str s => s != ""
  | PyVal.list xs => !xs.isEmpty
  | PyVal.dict kvs => !kvs.isEmpty

/-- `len(v)`: defined for strings, lists and dicts; `TypeError` otherwise. -/
def pyLen : PyVal → Except PyErr Nat
  | PyVal.str s => Except.ok s.length
  | PyVal.list xs => Except.ok xs.length
  | PyVal.dict kvs => Except.ok kvs.length
  | _ => Except.error PyErr.typeError

/-- `v[-n:]`: the last `n` items of a sequence; non-sequences raise
`TypeError` (a dict rejects the slice key). -/
def pySliceLast (n : Nat) : PyVal → Except PyErr PyVal
  | PyVal.str s => Except.ok (PyVal.str (String.mk (s.toList.drop (s.length - n))))
  | PyVal.list xs => Except.ok (PyVal.list (xs.drop (xs.length - n)))
  | _ => Except.error PyErr.typeError

/-- `"\n".join(v)`: joins an iterable of strings; iterating a string yields its
characters and iterating a dict yields its keys; each element must be a string
or `TypeError` is raised. -/
def pyJoinNewline : PyVal → Except PyErr String
  | PyVal.str s =>
    Except.ok (String.intercalate "\n" (s.toList.map (fun c => String.mk [c])))
  | PyVal.list xs => do
    let strs ← xs.mapM (fun x =>
      match x with
      | PyVal.str s => Except.ok s
      | _ => Except.error PyErr.typeError)
    pure (String.intercalate "\n" strs)
  | PyVal.dict kvs => Except.ok (String.intercalate "\n" (kvs.map (fun kv => kv.1)))
  | _ => Except.error PyErr.typeError

/-- Exception class name, standing in for `str(e)` in the log format strings. -/
def pyErrMsg : PyErr → String
  | PyErr.valueError => "ValueError"
  | PyErr.typeError => "TypeError"
  | PyErr.overflowError => "OverflowError"
  | PyErr.attributeError => "AttributeError"

/-- The guarded compression-ratio computation of `update_gui` (lines 154-158):
`total_raw / total_extracted` only when `total_extracted > 0`, else `0.0`.
The quotient is kept exact (binary64 rounding of the Python float division is
not modelled). -/
def ratioCalc (total_raw total_extracted : Int) : Rat :=
  if 0 < total_extracted then (total_raw : Rat) / (total_extracted : Rat) else 0

/-- The value displayed as `Current Raw Entropy` (line 142):
`safe_float(metrics.get('current_raw_entropy', 0.0))`. -/
def currentEntropyOf (metrics : PyVal) : Except PyErr PyFloat := do
  safe_float (← pyGet metrics "current_raw_entropy" (PyVal.float (PyFloat.finite 0)))
    (PyFloat.finite 0)

/-- One line of the source-quality breakdown text (line 173); the numeric
values are kept unformatted. -/
structure BreakdownLine where
  source : String
  raw_shannon : PyFloat
  min_entropy : PyFloat
  samples : Int

/-- The values `update_gui` writes to the GUI widgets on a fully successful
pass.  Display-string formatting (`:.4f` etc.) is abstracted: each field holds
the value being rendered. -/
structure GuiState where
  series_entropy : Option (List Nat × PyVal)
  total_bytes : Int
  current_entropy : PyFloat
  pool_fill : PyFloat
  pool_accum : Int
  extract_count : Int
  ratioShown : Rat
  breakdown : List BreakdownLine
  pool_hex : PyVal
  log_text : String
  net_status : String
  p2p_status : String
  pqc_status : String

/-- The body of the `try:` block of `update_gui` (lines 130-211), after the
metrics JSON has been decoded to `metrics`.  Any Python exception raised along
the way is the `Except.error` result. -/
def update_gui_inner (metrics : PyVal) : Except PyErr GuiState := do
  let historyDefault ← pyGet metrics "history" (PyVal.list [])
  let history ← pyGet metrics "history_raw" historyDefault
  let series ←
    if pyTruthy history then do
      let n ← pyLen history
      pure (some (List.range n, history))
    else
      pure Option.none
  let total_bytes ← safe_int (← pyGet metrics "total_bytes" (PyVal.int 0)) 0
  let current_entropy ← currentEntropyOf metrics
  let pool_fill ←
    safe_float (← pyGet metrics "extraction_pool_fill" (PyVal.float (PyFloat.finite 0)))
      (PyFloat.finite 0)
  let pool_accum ← safe_int (← pyGet metrics "extraction_pool_accumulated" (PyVal.int 0)) 0
  let extract_count ← safe_int (← pyGet metrics "extractions_count" (PyVal.int 0)) 0
  let total_raw ← safe_int (← pyGet metrics "total_raw_consumed" (PyVal.int 0)) 0
  let total_extracted ← safe_int (← pyGet metrics "total_extracted_bytes" (PyVal.int 0)) 0
  let ratioShown := ratioCalc total_raw total_extracted
  let source_quality ← pyGet metrics "source_quality" (PyVal.dict [])
  let items ← pyItems source_quality
  let breakdown ← items.foldlM
    (fun acc sq => do
      let raw_shannon ←
        safe_float (← pyGet sq.2 "raw_shannon" (PyVal.float (PyFloat.finite 0)))
          (PyFloat.finite 0)
      let min_ent ←
        safe_float (← pyGet sq.2 "min_entropy" (PyVal.float (PyFloat.finite 0)))
          (PyFloat.finite 0)
      let samples ← safe_int (← pyGet sq.2 "samples" (PyVal.int 0)) 0
      pure (acc ++ [BreakdownLine.mk sq.1 raw_shannon min_ent samples]))
    []
  let pool_hex ← pyGet metrics "pool_hex" (PyVal.str "")
  let logs ← pyGet metrics "logs" (PyVal.list [])
  let logTail ← pySliceLast 15 logs
  let log_text ← pyJoinNewline logTail
  let net_mode ← pyGet metrics "net_mode" (PyVal.bool false)
  let net_status :=
    if pyTruthy net_mode then "UPLINK: ONLINE (Ayatoki)" else "UPLINK: OFFLINE (Local Mode)"
  let p2p_active ← pyGet metrics "p2p_active" (PyVal.bool false)
  let p2p_peers ← safe_int (← pyGet metrics "p2p_peer_count" (PyVal.int 0)) 0
  let p2p_received ← safe_int (← pyGet metrics "p2p_received_count" (PyVal.int 0)) 0
  let p2p_status :=
    if pyTruthy p2p_active then
      "P2P: ACTIVE (" ++ toString p2p_peers ++ " peers, " ++ toString p2p_received ++ " received)"
    else "P2P: OFFLINE"
  let pqc_ready ← pyGet metrics "pqc_ready" (PyVal.bool false)
  let pqc_status :=
    if pyTruthy pqc_ready then "PQC STATUS: ACTIVE (Kyber/Falcon)" else "PQC STATUS: DISABLED"
  pure (GuiState.mk series total_bytes current_entropy pool_fill pool_accum extract_count
    ratioShown breakdown pool_hex log_text net_status p2p_status pqc_status)

/-- `UPDATE_INTERVAL = 0.1` (line 31), as an exact rational. -/
def UPDATE_INTERVAL : Rat := 1 / 10

/-- The combined outcome of `engine.get_metrics()` followed by `json.loads`:
a decoded payload, a JSON decode failure, or an exception raised by the engine
call itself. -/
inductive FetchOutcome where
  | ok (metrics : PyVal)
  | jsonDecodeError (msg : String)
  | raised (e : PyErr)

/-- What a single `update_gui()` invocation did. -/
inductive UpdateResult where
  | throttled
  | updated (state : GuiState)
  | jsonError (logLine : String)
  | syncError (logLine : String)

/-- Result record of one `update_gui()` call: the visible outcome, the new
value of `LAST_UPDATE_TIME`, and the trace of engine calls made. -/
structure UpdateOutcome where
  result : UpdateResult
  newLast : Rat
  calls : List EngineCall

/-- `update_gui` (lines 120-216): throttling against `LAST_UPDATE_TIME`, the
single `engine.get_metrics()` read, and the two `except` handlers that turn
every JSON decode error and every other exception into a log line.  The
current wall-clock time and the engine's response are explicit parameters. -/
def update_gui (lastUpdateTime currentTime : Rat) (fetch : FetchOutcome) : UpdateOutcome :=
  if currentTime - lastUpdateTime < UPDATE_INTERVAL then
    UpdateOutcome.mk UpdateResult.throttled lastUpdateTime []
  else
    match fetch with
    | FetchOutcome.jsonDecodeError msg =>
      UpdateOutcome.mk (UpdateResult.jsonError ("GUI Sync Error - JSON Parse: " ++ msg))
        currentTime [EngineCall.getMetrics]
    | FetchOutcome.raised e =>
      UpdateOutcome.mk (UpdateResult.syncError ("GUI Sync Error: " ++ pyErrMsg e))
        currentTime [EngineCall.getMetrics]
    | FetchOutcome.ok m =>
      match update_gui_inner m with
      | Except.ok s =>
        UpdateOutcome.mk (UpdateResult.updated s) currentTime [EngineCall.getMetrics]
      | Except.error e =>
        UpdateOutcome.mk (UpdateResult.syncError ("GUI Sync Error: " ++ pyErrMsg e))
          currentTime [EngineCall.getMetrics]

/-- Per-harvester static data from the `harvester_info` table (lines 21-27). -/
structure HarvesterMeta where
  rust_name : String
  available : Bool
deriving DecidableEq, Repr

/-- The five-entry `harvester_info` table exactly as written in the source. -/
def harvester_info : List (String × HarvesterMeta) :=
  [("System/CPU", HarvesterMeta.mk "SYSTEM" true),
   ("Hardware/TRNG", HarvesterMeta.mk "TRNG" true),
   ("Audio (Mic)", HarvesterMeta.mk "AUDIO" true),
   ("Video (Cam)", HarvesterMeta.mk "VIDEO" true),
   ("HID (Mouse)", HarvesterMeta.mk "MOUSE" true)]

/-- `harvester_info.get(h_name)`. -/
def harvesterLookup (name : String) : Option HarvesterMeta :=
  (harvester_info.find? (fun kv => kv.1 == name)).map (fun kv => kv.2)

/-- `toggle_harvester` (lines 64-71): engine-call trace of one invocation with
`user_data = name` and checkbox value `app_data`. -/
def toggle_harvester (user_data : String) (app_data : Bool) : List EngineCall :=
  match harvesterLookup user_data with
  | some meta => [EngineCall.toggleHarvester meta.rust_name app_data]
  | Option.none => []

/-- One `dpg.add_checkbox` widget as configured by the build loop. -/
structure CheckboxSpec where
  label : String
  user_data : String
  default_value : Bool
  enabled : Bool
deriving DecidableEq, Repr

/-- The harvester checkboxes built in lines 255-263: one per table entry, with
the widget `enabled` flag set to the harvester's `available` flag (a disabled
widget cannot fire its callback). -/
def harvesterCheckboxes : List CheckboxSpec :=
  harvester_info.map (fun kv => CheckboxSpec.mk kv.1 kv.1 false kv.2.available)

/-- `callback_ip_update` (lines 85-88): the target is set only when the entered
string is truthy, i.e. non-empty. -/
def callback_ip_update (app_data : String) : List EngineCall :=
  if app_data = "" then [] else [EngineCall.setNetworkTarget app_data]

/-- Effects of one `callback_add_peer` invocation. -/
structure PeerEffects where
  calls : List EngineCall
  logLines : List String
deriving DecidableEq, Repr

/-- `callback_add_peer` (lines 101-108): skips empty input; otherwise calls
`engine.add_peer` and catches any exception it raises, logging instead of
propagating.  The engine's behaviour is the `outcome` parameter. -/
def callback_add_peer (app_data : String) (outcome : Except String Unit) : PeerEffects :=
  if app_data = "" then PeerEffects.mk [] []
  else
    match outcome with
    | Except.ok _ =>
      PeerEffects.mk [EngineCall.addPeer app_data] ["GUI: Added peer " ++ app_data]
    | Except.error e =>
      PeerEffects.mk [EngineCall.addPeer app_data] ["GUI: Error adding peer: " ++ e]

/-- `callback_p2p_port_update` (lines 90-99): parse with `int()`, accept only
1024-65535, reject everything else (including unparsable strings) with only a
log message and no engine call. -/
def callback_p2p_port_update (app_data : String) : List EngineCall :=
  match pyIntOfString app_data with
  | some port => if 1024 ≤ port ∧ port ≤ 65535 then [EngineCall.setP2pPort port] else []
  | Option.none => []

/-- Effects of one `callback_mint_pqc` invocation: the string written to the
`txt_last_key` widget and the console line. -/
structure MintEffects where
  txt_last_key : String
  logLine : String
deriving DecidableEq, Repr

/-- `callback_mint_pqc` (lines 110-118): the `try`/`except` around
`engine.mint_pqc_bundle("GUI_USER")`.  The engine's outcome (success message
or exception text) is the parameter; both branches produce a display value and
a log line, so the callback itself never raises. -/
def callback_mint_pqc (outcome : Except String String) : MintEffects × List EngineCall :=
  (match outcome with
   | Except.ok msg => MintEffects.mk ("Last: " ++ msg) ("GUI: " ++ msg)
   | Except.error e => MintEffects.mk ("Error: " ++ e) ("GUI PQC Error: " ++ e),
   [EngineCall.mintPqcBundle "GUI_USER"])

/-- Modelled from the spec: the clamp of the pool-wide current raw entropy
scalar lives in the Rust engine (`chaos_magnet_core`), which is not under
`src/`.  Spec, section 4.2: the value is "the most recently computed pool-wide
Shannon value in bits/byte, clamped to [0, 8]". -/
def engineCurrentRawEntropy (x : Rat) : Rat := max 0 (min 8 x)

/-! ## Theorems -/

set_option maxRecDepth 4000 in
/-- Sanity check of the overflow-bound literal: it equals
`2^1024 - 2^970 = (2^54 - 1) * 2^970`. -/
theorem dblOverflowBoundNat_eq : dblOverflowBoundNat = ((2 : Nat) ^ 54 - 1) <<< 970 := by
  decide

/-- The engine-call trace of one `update_gui` invocation: empty when
throttled, exactly one `get_metrics` read otherwise. -/
theorem update_gui_calls_eq (last now : Rat) (fetch : FetchOutcome) :
    (update_gui last now fetch).calls =
      if now - last < UPDATE_INTERVAL then [] else [EngineCall.getMetrics] := by
  by_cases h : now - last < UPDATE_INTERVAL
  · simp [update_gui, h]
  · cases fetch with
    | ok m => cases hu : update_gui_inner m <;> simp [update_gui, h, hu]
    | jsonDecodeError msg => simp [update_gui, h]
    | raised e => simp [update_gui, h]

/-- `LAST_UPDATE_TIME` after one `update_gui` invocation: unchanged when
throttled, the current time otherwise (line 128 runs before the `try` block,
so it is set even when the body later fails). -/
theorem update_gui_newLast_eq (last now : Rat) (fetch : FetchOutcome) :
    (update_gui last now fetch).newLast =
      if now - last < UPDATE_INTERVAL then last else now := by
  by_cases h : now - last < UPDATE_INTERVAL
  · simp [update_gui, h]
  · cases fetch with
    | ok m => cases hu : update_gui_inner m <;> simp [update_gui, h, hu]
    | jsonDecodeError msg => simp [update_gui, h]
    | raised e => simp [update_gui, h]

/-- C1: The compression ratio presented to the consumer equals
`total_raw_consumed / total_extracted_bytes` whenever
`total_extracted_bytes > 0`, and is defined as `0` when it is `0`; the
division is only ever performed with a non-zero (indeed positive)
denominator, so the computation never divides by zero.  `ratioCalc` is the
guarded computation of `update_gui` lines 154-158, used verbatim by
`update_gui_inner` for the displayed `ratioShown` field. -/
theorem c1_ratio_guarded (raw ext : Int) :
    (0 < ext → ratioCalc raw ext = (raw : Rat) / (ext : Rat) ∧ ((ext : Rat) ≠ 0)) ∧
    (ext = 0 → ratioCalc raw ext = 0) := by
  constructor
  · intro h
    refine ⟨by simp [ratioCalc, h], ?_⟩
    exact_mod_cast h.ne'
  · intro h
    subst h
    simp [ratioCalc]

/-- Witness for C1 at concrete inputs. -/
theorem c1_ratio_guarded_witness : ratioCalc 96 32 = 3 ∧ ratioCalc 5 0 = 0 := by
  constructor
  · rw [((c1_ratio_guarded 96 32).1 (by norm_num)).1]
    norm_num
  · exact (c1_ratio_guarded 5 0).2 rfl

/-- C2: `callback_p2p_port_update` rejects every string that `int()` cannot
parse and every parsed port outside 1024-65535 without any engine call (so
prior configuration is untouched), and calls `engine.set_p2p_port(port)` for
every parsed port inside 1024-65535. -/
theorem c2_port_validation (s : String) (p : Int) :
    (pyIntOfString s = Option.none → callback_p2p_port_update s = []) ∧
    (pyIntOfString s = some p → 1024 ≤ p → p ≤ 65535 →
      callback_p2p_port_update s = [EngineCall.setP2pPort p]) ∧
    (pyIntOfString s = some p → (p < 1024 ∨ 65535 < p) →
      callback_p2p_port_update s = []) := by
  refine ⟨fun h => ?_, fun h h1 h2 => ?_, fun h hout => ?_⟩
  · simp [callback_p2p_port_update, h]
  · simp [callback_p2p_port_update, h, h1, h2]
  · have hn : ¬(1024 ≤ p ∧ p ≤ 65535) := by omega
    simp [callback_p2p_port_update, h, hn]

/-- Witness for C2: port 9000 is accepted; 80, 70000 and the non-integer
string "12.5" are rejected with no engine call. -/
theorem c2_port_validation_witness :
    callback_p2p_port_update "9000" = [EngineCall.setP2pPort 9000] ∧
    callback_p2p_port_update "80" = [] ∧
    callback_p2p_port_update "70000" = [] ∧
    callback_p2p_port_update "12.5" = [] := by
  refine ⟨?_, ?_, ?_, ?_⟩
  · exact (c2_port_validation "9000" 9000).2.1 rfl (by norm_num) (by norm_num)
  · exact (c2_port_validation "80" 80).2.2 rfl (Or.inl (by norm_num))
  · exact (c2_port_validation "70000" 70000).2.2 rfl (Or.inr (by norm_num))
  · exact (c2_port_validation "12.5" 0).1 rfl

/-- C3: a harvester name outside the five-entry `harvester_info` table makes
`toggle_harvester` a no-op with no engine call; each harvester checkbox is
built with its widget `enabled` flag equal to the harvester's `available`
flag, so an unavailable harvester's toggle cannot be activated and its
enabled state never changes; and every entry of the table as written has
`available = true`. -/
theorem c3_harvester_gating (name : String) (b : Bool) :
    (harvesterLookup name = Option.none → toggle_harvester name b = []) ∧
    (∀ cb ∈ harvesterCheckboxes,
      Option.map HarvesterMeta.available (harvesterLookup cb.user_data) = some cb.enabled) ∧
    (∀ kv ∈ harvester_info, kv.2.available = true) := by
  refine ⟨fun h => ?_, by decide, by decide⟩
  simp [toggle_harvester, h]

/-- Witness for C3 at a name outside the table. -/
theorem c3_harvester_gating_witness :
    toggle_harvester "Keyboard" true = [] ∧
    (∀ cb ∈ harvesterCheckboxes,
      Option.map HarvesterMeta.available (harvesterLookup cb.user_data) = some cb.enabled) :=
  ⟨(c3_harvester_gating "Keyboard" true).1 rfl, (c3_harvester_gating "Keyboard" true).2.1⟩

/-- C4: `callback_mint_pqc` is a total function of the engine's outcome — it
never raises.  On success the message is displayed as `Last: ...` and logged;
on failure the error detail is displayed as `Error: ...` and logged; in both
cases exactly one `mint_pqc_bundle("GUI_USER")` engine call is made. -/
theorem c4_mint_surfaced (outcome : Except String String) :
    (callback_mint_pqc outcome).2 = [EngineCall.mintPqcBundle "GUI_USER"] ∧
    (∀ msg, outcome = Except.ok msg →
      (callback_mint_pqc outcome).1 = MintEffects.mk ("Last: " ++ msg) ("GUI: " ++ msg)) ∧
    (∀ e, outcome = Except.error e →
      (callback_mint_pqc outcome).1 =
        MintEffects.mk ("Error: " ++ e) ("GUI PQC Error: " ++ e)) := by
  refine ⟨by cases outcome <;> rfl, fun msg h => by subst h; rfl, fun e h => by subst h; rfl⟩

/-- Witness for C4 at a concrete success and a concrete failure. -/
theorem c4_mint_surfaced_witness :
    (callback_mint_pqc (Except.ok "Bundle kb_01 saved")).1 =
      MintEffects.mk ("Last: " ++ "Bundle kb_01 saved") ("GUI: " ++ "Bundle kb_01 saved") ∧
    (callback_mint_pqc (Except.error "insufficient entropy")).1 =
      MintEffects.mk ("Error: " ++ "insufficient entropy")
        ("GUI PQC Error: " ++ "insufficient entropy") :=
  ⟨(c4_mint_surfaced (Except.ok "Bundle kb_01 saved")).2.1 "Bundle kb_01 saved" rfl,
   (c4_mint_surfaced (Except.error "insufficient entropy")).2.2 "insufficient entropy" rfl⟩

/-- C5: `update_gui` never raises to its caller: it is a total function whose
codomain has no exception channel.  Whatever the metrics payload — a JSON
decode failure, an exception raised by the engine, or a decoded value on
which the body raises (missing fields and wrong-typed fields surface as
`Except.error` of `update_gui_inner`) — the result is a logged error line,
never a propagated exception. -/
theorem c5_update_gui_never_raises (last now : Rat) (fetch : FetchOutcome) :
    (now - last < UPDATE_INTERVAL →
      (update_gui last now fetch).result = UpdateResult.throttled) ∧
    (UPDATE_INTERVAL ≤ now - last →
      (∀ msg, fetch = FetchOutcome.jsonDecodeError msg →
        (update_gui last now fetch).result =
          UpdateResult.jsonError ("GUI Sync Error - JSON Parse: " ++ msg)) ∧
      (∀ e, fetch = FetchOutcome.raised e →
        (update_gui last now fetch).result =
          UpdateResult.syncError ("GUI Sync Error: " ++ pyErrMsg e)) ∧
      (∀ m e, fetch = FetchOutcome.ok m → update_gui_inner m = Except.error e →
        (update_gui last now fetch).result =
          UpdateResult.syncError ("GUI Sync Error: " ++ pyErrMsg e)) ∧
      (∀ m st, fetch = FetchOutcome.ok m → update_gui_inner m = Except.ok st →
        (update_gui last now fetch).result = UpdateResult.updated st)) := by
  constructor
  · intro h
    simp [update_gui, h]
  · intro h
    have hn : ¬(now - last < UPDATE_INTERVAL) := not_lt.mpr h
    refine ⟨fun msg hm => ?_, fun e he => ?_, fun m e hm hinner => ?_, fun m st hm hinner => ?_⟩
    · subst hm; simp [update_gui, hn]
    · subst he; simp [update_gui, hn]
    · subst hm; simp [update_gui, hn, hinner]
    · subst hm; simp [update_gui, hn, hinner]

/-- Witness for C5: a malformed payload (the JSON document `5`, on which
`metrics.get` raises `AttributeError`) is caught and logged, not raised. -/
theorem c5_update_gui_never_raises_witness :
    (update_gui 0 1 (FetchOutcome.ok (PyVal.int 5))).result =
      UpdateResult.syncError ("GUI Sync Error: " ++ pyErrMsg PyErr.attributeError) :=
  ((c5_update_gui_never_raises 0 1 (FetchOutcome.ok (PyVal.int 5))).2
      (by norm_num [UPDATE_INTERVAL])).2.2.1 (PyVal.int 5) PyErr.attributeError rfl rfl

/-- C6 (spec-modelled): the clamp of the pool-wide entropy scalar lives in the
Rust engine; for every metrics snapshot whose `current_raw_entropy` field
carries the engine's clamped value, the value the GUI displays (line 142,
`safe_float` of that field) is that same value and lies in [0, 8]. -/
theorem c6_entropy_clamped (x : Rat) (m : PyVal)
    (h : pyGet m "current_raw_entropy" (PyVal.float (PyFloat.finite 0)) =
      Except.ok (PyVal.float (PyFloat.finite (engineCurrentRawEntropy x)))) :
    currentEntropyOf m = Except.ok (PyFloat.finite (engineCurrentRawEntropy x)) ∧
    0 ≤ engineCurrentRawEntropy x ∧ engineCurrentRawEntropy x ≤ 8 := by
  refine ⟨?_, le_max_left 0 _, max_le (by norm_num) (min_le_left 8 x)⟩
  unfold currentEntropyOf
  rw [h]
  rfl

/-- Witness for C6: an out-of-range raw reading 9 is clamped by the engine to
8 and displayed as 8. -/
theorem c6_entropy_clamped_witness :
    currentEntropyOf (PyVal.dict [("current_raw_entropy", PyVal.float (PyFloat.finite 8))]) =
      Except.ok (PyFloat.finite (engineCurrentRawEntropy 9)) ∧
    0 ≤ engineCurrentRawEntropy 9 ∧ engineCurrentRawEntropy 9 ≤ 8 :=
  c6_entropy_clamped 9
    (PyVal.dict [("current_raw_entropy", PyVal.float (PyFloat.finite 8))]) rfl

/-- C7: a call arriving less than `UPDATE_INTERVAL = 0.1 s` after the last
completed update returns without touching the engine and without changing
`LAST_UPDATE_TIME`; any call that does reach the engine happened at least
0.1 s after the recorded last update, and two consecutive engine-touching
calls are at least 0.1 s apart. -/
theorem c7_throttle_cadence (last now t2 : Rat) (fetch fetch2 : FetchOutcome) :
    (now - last < UPDATE_INTERVAL →
      (update_gui last now fetch).calls = [] ∧
      (update_gui last now fetch).newLast = last) ∧
    ((update_gui last now fetch).calls ≠ [] →
      UPDATE_INTERVAL ≤ now - last ∧ (update_gui last now fetch).newLast = now) ∧
    ((update_gui last now fetch).calls ≠ [] →
      (update_gui (update_gui last now fetch).newLast t2 fetch2).calls ≠ [] →
      UPDATE_INTERVAL ≤ t2 - now) := by
  refine ⟨fun h => ?_, fun h => ?_, fun h h2 => ?_⟩
  · simp [update_gui_calls_eq, update_gui_newLast_eq, h]
  · have hlt : ¬(now - last < UPDATE_INTERVAL) := by
      intro hlt
      rw [update_gui_calls_eq] at h
      simp [hlt] at h
    exact ⟨not_lt.mp hlt, by simp [update_gui_newLast_eq, hlt]⟩
  · have hlt : ¬(now - last < UPDATE_INTERVAL) := by
      intro hlt
      rw [update_gui_calls_eq] at h
      simp [hlt] at h
    have hn : (update_gui last now fetch).newLast = now := by
      simp [update_gui_newLast_eq, hlt]
    rw [hn] at h2
    have hlt2 : ¬(t2 - now < UPDATE_INTERVAL) := by
      intro hlt2
      rw [update_gui_calls_eq] at h2
      simp [hlt2] at h2
    exact not_lt.mp hlt2

/-- Witness for C7: a call 0.05 s after the last update is throttled — no
engine call, timestamp unchanged. -/
theorem c7_throttle_cadence_witness :
    (update_gui 0 (1 / 20) (FetchOutcome.jsonDecodeError "bad")).calls = [] ∧
    (update_gui 0 (1 / 20) (FetchOutcome.jsonDecodeError "bad")).newLast = 0 :=
  (c7_throttle_cadence 0 (1 / 20) 1 (FetchOutcome.jsonDecodeError "bad")
    (FetchOutcome.jsonDecodeError "bad")).1 (by norm_num [UPDATE_INTERVAL])

/-- C8: reading metrics never mutates engine state — the only engine
operation an `update_gui` invocation can appear in its trace is
`get_metrics`; no toggle, configuration, mint, or shutdown call occurs. -/
theorem c8_metrics_read_only (last now : Rat) (fetch : FetchOutcome) (c : EngineCall) :
    c ∈ (update_gui last now fetch).calls → c = EngineCall.getMetrics := by
  rw [update_gui_calls_eq]
  by_cases h : now - last < UPDATE_INTERVAL
  · simp [h]
  · simp [h]

/-- Witness for C8 at a concrete non-throttled invocation. -/
theorem c8_metrics_read_only_witness :
    EngineCall.getMetrics ∈ (update_gui 0 1 (FetchOutcome.jsonDecodeError "bad")).calls ∧
    EngineCall.getMetrics = EngineCall.getMetrics := by
  have hmem : EngineCall.getMetrics ∈ (update_gui 0 1 (FetchOutcome.jsonDecodeError "bad")).calls := by
    rw [update_gui_calls_eq]
    norm_num [UPDATE_INTERVAL]
  exact ⟨hmem, c8_metrics_read_only 0 1 (FetchOutcome.jsonDecodeError "bad")
    EngineCall.getMetrics hmem⟩

/-- C9: the sanitizers are NOT total.  `safe_int("inf")` evaluates
`int(float("inf"))`, which raises `OverflowError`; the `except
(ValueError, TypeError)` clause does not catch it, so the exception
propagates — contradicting the docstring "Safely convert any value to int".
Likewise for an actual float infinity.  The benign sub-claims hold: a numeric
string such as "4.0" is parsed via float conversion and truncated to 4, the
sentinels and non-numeric types yield the default. -/
theorem c9_safe_int_not_total :
    safe_int (PyVal.str "inf") 0 = Except.error PyErr.overflowError ∧
    safe_int (PyVal.float PyFloat.inf) 0 = Except.error PyErr.overflowError ∧
    safe_int (PyVal.str "4.0") 0 = Except.ok 4 ∧
    safe_int (PyVal.str "N/A") 7 = Except.ok 7 ∧
    safe_float (PyVal.str "") (PyFloat.finite 2) = Except.ok (PyFloat.finite 2) ∧
    safe_int PyVal.none 3 = Except.ok 3 ∧
    safe_int (PyVal.list []) 5 = Except.ok 5 :=
  ⟨rfl, rfl, rfl, rfl, rfl, rfl, rfl⟩

/-- C10: empty input at the network boundary is a no-op — neither
`set_network_target` nor `add_peer` is invoked on the empty string; for
non-empty peer input, `add_peer` is invoked and any exception it raises is
caught and logged rather than propagated (the callback is total). -/
theorem c10_network_boundary (s : String) (outcome : Except String Unit) :
    (s = "" → callback_ip_update s = [] ∧ (callback_add_peer s outcome).calls = []) ∧
    (s ≠ "" → callback_ip_update s = [EngineCall.setNetworkTarget s] ∧
      (callback_add_peer s outcome).calls = [EngineCall.addPeer s] ∧
      (∀ e, outcome = Except.error e →
        (callback_add_peer s outcome).logLines = ["GUI: Error adding peer: " ++ e])) := by
  constructor
  · intro h
    subst h
    exact ⟨rfl, rfl⟩
  · intro h
    refine ⟨by simp [callback_ip_update, h], ?_, ?_⟩
    · cases outcome <;> simp [callback_add_peer, h]
    · intro e he
      subst he
      simp [callback_add_peer, h]

/-- Witness for C10: the empty string is a no-op; a failing `add_peer` on a
real address is reported, not propagated. -/
theorem c10_network_boundary_witness :
    callback_ip_update "" = [] ∧
    (callback_add_peer "10.0.0.5:9000" (Except.error "unreachable")).calls =
      [EngineCall.addPeer "10.0.0.5:9000"] ∧
    (callback_add_peer "10.0.0.5:9000" (Except.error "unreachable")).logLines =
      ["GUI: Error adding peer: " ++ "unreachable"] := by
  refine ⟨((c10_network_boundary "" (Except.ok ())).1 rfl).1, ?_, ?_⟩
  · exact ((c10_network_boundary "10.0.0.5:9000" (Except.error "unreachable")).2
      (by decide)).2.1
  · exact ((c10_network_boundary "10.0.0.5:9000" (Except.error "unreachable")).2
      (by decide)).2.2 "unreachable" rfl

end ChaosMagnet
